import Mathlib

/-!
Verification of the GSLT manager (`gslt_manager.py`) against its
natural-language specification.

The module drives a browser over Steam's game-server-token management page.
We give a shallow embedding of the page state that the code observes (the
`serverList` container, its first table, the table's body rows, each row's
cells, and the action forms inside the trailing cell) and translate the
scraping and mutation logic into pure Lean functions.  Selenium calls that
can raise (`find_element` on a missing element, negative indexing into an
empty list) are modelled with `Except DomErr`; `try/except` blocks in the
Python source become matches that discard the error, exactly where the
source discards it.
-/

set_option autoImplicit false

namespace GSLT

/-- Substring test on character lists: does the second list contain `needle`
as a contiguous run?  Embeds both Python's `in` operator on strings and
JavaScript's `String.prototype.includes`. -/
def seqContains (needle : List Char) : List Char → Bool
  | [] => needle.isEmpty
  | c :: rest => needle.isPrefixOf (c :: rest) || seqContains needle rest

/-- `strContains hay needle` is Python's `needle in hay`. -/
def strContains (hay needle : String) : Bool :=
  seqContains needle.data hay.data

/-- Python `str.strip()`: remove surrounding whitespace. -/
def pyStrip (s : String) : String :=
  String.mk (((s.data.dropWhile Char.isWhitespace).reverse.dropWhile Char.isWhitespace).reverse)

/-- Python `str.upper()` (ASCII case mapping, which is all the page's token
strings use). -/
def pyUpper (s : String) : String :=
  String.mk (s.data.map Char.toUpper)

/-- Digit-run acceptor for Python `int(...)`: a nonempty run of decimal
digits in which a single underscore may stand between two digits.  The
boolean argument records whether the previous character was a digit (so an
underscore is currently allowed and so the run may legally end). -/
def pyDigitsGo : List Char → Bool → Nat → Option Nat
  | [], afterDigit, acc => if afterDigit then some acc else none
  | c :: rest, afterDigit, acc =>
    if c.isDigit then pyDigitsGo rest true (acc * 10 + (c.toNat - 48))
    else if c == '_' && afterDigit then pyDigitsGo rest false acc
    else none

/-- Python `int(s)` on a decimal string: optional surrounding whitespace,
optional sign, then a digit run.  `none` models the `ValueError` that the
source catches. -/
def pyInt? (s : String) : Option Int :=
  match (pyStrip s).data with
  | '+' :: ds => (pyDigitsGo ds false 0).map Int.ofNat
  | '-' :: ds => (pyDigitsGo ds false 0).map (fun n => -(n : Int))
  | ds => (pyDigitsGo ds false 0).map Int.ofNat

/-- Exceptions that Selenium lookups can raise out of the scrape:
`find_element` on a missing element, and indexing into an empty cell list. -/
inductive DomErr where
  | noSuchElement
  | indexError
  deriving DecidableEq

/-- A `<form>` inside a row's trailing cell.  `action` is
`get_attribute("action")` (`none` when the attribute is absent).  `steamid`
is the hidden field named `steamid`: the outer `none` means no such element
exists (so `find_element` raises), `some v` means the element exists and
`get_attribute("value")` returns `v`. -/
structure Form where
  action : Option String
  steamid : Option (Option String)
  deriving DecidableEq

/-- A `<td>` cell as the code observes it: its rendered text, the tag names
of its descendants (for the `<s>`/`<strike>` queries), whether those queries
raise, the two computed text-decoration style strings with a flag for the
style script raising, and the forms it contains. -/
structure Cell where
  text : String
  descendantTags : List String
  tagQueryRaises : Bool
  textDecorationLine : String
  textDecoration : String
  styleQueryRaises : Bool
  forms : List Form
  deriving DecidableEq

/-- A table body row: its `<td>` cells in order. -/
structure Row where
  tds : List Cell
  deriving DecidableEq

/-- A `<table>` inside the server-list container: its `tbody > tr` rows. -/
structure Table where
  rows : List Row
  deriving DecidableEq

/-- The `serverList` container: the tables it holds. -/
structure ServerList where
  tables : List Table
  deriving DecidableEq

/-- The page state the scrape observes: the `serverList` container, or
`none` when `find_element(By.ID, "serverList")` raises. -/
structure Dom where
  serverList : Option ServerList
  deriving DecidableEq

/-- A parsed token record (`@dataclass Token`). -/
structure Token where
  appid : Int
  gslt : String
  last_logon : Option String
  memo : String
  steamid : String
  valid : Bool
  deriving DecidableEq

/-- `_cell_not_struck`: `true` unless the token cell is detected as
struck-through.  First query for `<s>`/`<strike>` descendants (a raising
query is swallowed and falls through); then run the computed-style script
`(s.textDecorationLine || s.textDecoration || '').includes('line-through')`
(a raising script is swallowed); default to `true`. -/
def cell_not_struck (c : Cell) : Bool :=
  if !c.tagQueryRaises && (c.descendantTags.contains "s" || c.descendantTags.contains "strike") then
    false
  else if !c.styleQueryRaises &&
      strContains (if c.textDecorationLine == "" then c.textDecoration else c.textDecorationLine)
        "line-through" then
    false
  else
    true

/-- The action-attribute test from `_extract_steamid_from_row`:
`"resetgstoken" in action or "deletegsaccount" in action or
"updategsmemo" in action`, with a missing attribute read as `""`. -/
def actionMatches (f : Form) : Bool :=
  let action := f.action.getD ""
  strContains action "resetgstoken" || strContains action "deletegsaccount" ||
    strContains action "updategsmemo"

/-- The form scan inside `_extract_steamid_from_row`: walk the forms in
order; on a form whose action matches, look up the hidden `steamid` element
(raising `NoSuchElementException` when absent) and return its value if it is
truthy (non-`None`, non-empty); otherwise keep scanning; return `""` when
the scan ends. -/
def scanForms : List Form → Except DomErr String
  | [] => .ok ""
  | f :: fs =>
    if actionMatches f then
      match f.steamid with
      | none => .error .noSuchElement
      | some (some v) => if v == "" then scanForms fs else .ok v
      | some none => scanForms fs
    else scanForms fs

/-- `_extract_steamid_from_row`: read the row's trailing cell
(`find_elements(By.TAG_NAME, "td")[-1]`, an `IndexError` on a cell-less row)
and scan its forms. -/
def extract_steamid_from_row (r : Row) : Except DomErr String :=
  match r.tds.getLast? with
  | none => .error .indexError
  | some cell => scanForms cell.forms

/-- The per-row body of `_parse_token_table`'s loop: rows with fewer than 5
cells are skipped (`.ok none`); otherwise the row's fields are read, the
steamid extraction runs (its exception propagates uncaught), and a failing
`int(...)` on the first cell skips the row. -/
def parseRow (r : Row) : Except DomErr (Option Token) :=
  match r.tds with
  | c0 :: c1 :: c2 :: c3 :: _c4 :: _rest =>
    let appid_txt := pyStrip c0.text
    let last_logon_txt := if pyStrip c2.text == "" then none else some (pyStrip c2.text)
    let memo_txt := pyStrip c3.text
    let gslt_txt := pyStrip c1.text
    let is_valid := cell_not_struck c1
    match extract_steamid_from_row r with
    | .error e => .error e
    | .ok sid =>
      match pyInt? appid_txt with
      | none => .ok none
      | some n =>
        .ok (some { appid := n, gslt := gslt_txt, last_logon := last_logon_txt,
                    memo := memo_txt, steamid := sid, valid := is_valid })
  | _ => .ok none

/-- The row loop of `_parse_token_table`: accumulate parsed rows in order;
an exception raised while handling a row aborts the whole scrape. -/
def parseRows : List Row → Except DomErr (List Token)
  | [] => .ok []
  | r :: rs =>
    match parseRow r with
    | .error e => .error e
    | .ok none => parseRows rs
    | .ok (some t) =>
      match parseRows rs with
      | .error e => .error e
      | .ok ts => .ok (t :: ts)

/-- `_parse_token_table`: missing `serverList` container or a container
with no table yield the empty list; otherwise parse the first table's body
rows. -/
def parse_token_table (d : Dom) : Except DomErr (List Token) :=
  match d.serverList with
  | none => .ok []
  | some sl =>
    match sl.tables with
    | [] => .ok []
    | tbl :: _ => parseRows tbl.rows

/-- The rows `_parse_token_table` iterates over: the body rows of the first
table of the `serverList` container, or `[]` when either is absent. -/
def domRows (d : Dom) : List Row :=
  match d.serverList with
  | none => []
  | some sl =>
    match sl.tables with
    | [] => []
    | tbl :: _ => tbl.rows

/-- The record a single row contributes when the scrape does not raise:
`some t` when the row parses, `none` when it is skipped (or would raise). -/
def rowToken? (r : Row) : Option Token :=
  match parseRow r with
  | .ok (some t) => some t
  | _ => none

/-- Boolean success test for an extraction result. -/
def isOkB (e : Except DomErr String) : Bool :=
  match e with
  | .ok _ => true
  | .error _ => false

/-- `get_all_tokens`: parse the table, optionally filtering by appid
(`[t for t in tokens if t.appid == int(appid)]`). -/
def get_all_tokens (d : Dom) (appid : Option Int) : Except DomErr (List Token) :=
  match parse_token_table d with
  | .error e => .error e
  | .ok ts =>
    match appid with
    | none => .ok ts
    | some a => .ok (ts.filter (fun t => t.appid == a))

/-- `is_token_valid`: scan the parsed tokens comparing on `upper()`-cased
strings; on a hit return the record's `valid` flag, otherwise `False`. -/
def is_token_valid (d : Dom) (g : String) : Except DomErr Bool :=
  match parse_token_table d with
  | .error e => .error e
  | .ok ts =>
    match ts.find? (fun t => pyUpper t.gslt == pyUpper g) with
    | some t => .ok t.valid
    | none => .ok false

/-- The DOM re-query loop at the end of `_find_row_by_token`: walk the
body rows comparing `tds[1].text.strip().upper()` with the requested token
(an `IndexError` on a row with fewer than two cells). -/
def requeryRows (g : String) : List Row → Except DomErr (Option Row)
  | [] => .ok none
  | r :: rs =>
    match r.tds.get? 1 with
    | none => .error .indexError
    | some c =>
      if pyUpper (pyStrip c.text) == pyUpper g then .ok (some r) else requeryRows g rs

/-- `_find_row_by_token`: parse the table; if no parsed token matches
case-insensitively, return `None` at once; otherwise re-query the DOM
(`find_element` raising when container or table is gone) for the row whose
second cell matches. -/
def find_row_by_token (d : Dom) (g : String) : Except DomErr (Option Row) :=
  match parse_token_table d with
  | .error e => .error e
  | .ok ts =>
    match ts.find? (fun t => pyUpper t.gslt == pyUpper g) with
    | none => .ok none
    | some _ =>
      match d.serverList with
      | none => .error .noSuchElement
      | some sl =>
        match sl.tables with
        | [] => .error .noSuchElement
        | tbl :: _ => requeryRows g tbl.rows

/-- Outcome of `regenerate_token` up to (and including) the `submit()`
script call, the operation's only mutation of the page.  `raises` carries
an exception propagating out of the scrape; `tokenNotFound` is the
`ValueError("Token not found on manage page.")`; `regenFormNotFound` is the
`RuntimeError("Could not locate regenerate form for this token.")`;
`submits f` records that the reset form `f` is submitted. -/
inductive RegenOutcome where
  | raises : DomErr → RegenOutcome
  | tokenNotFound : RegenOutcome
  | regenFormNotFound : RegenOutcome
  | submits : Form → RegenOutcome
  deriving DecidableEq

/-- `regenerate_token` up to its first mutation: find the row by token
(raising `TokenNotFound` when absent), extract the row's steamid (its
exception propagates), locate the first form in the trailing cell whose
action contains `"resetgstoken"`, then submit it. -/
def regenerate_pre (d : Dom) (g : String) : RegenOutcome :=
  match find_row_by_token d g with
  | .error e => .raises e
  | .ok none => .tokenNotFound
  | .ok (some row) =>
    match extract_steamid_from_row row with
    | .error e => .raises e
    | .ok _sid =>
      match row.tds.getLast? with
      | none => .raises .indexError
      | some forms_cell =>
        match forms_cell.forms.find? (fun f => strContains (f.action.getD "") "resetgstoken") with
        | some f => .submits f
        | none => .regenFormNotFound

/-- Failures of `create_gslt`: an exception propagating out of a scrape, or
the final `RuntimeError("Create GSLT appears to have failed...")`. -/
inductive CreateErr where
  | dom : DomErr → CreateErr
  | createFailed : CreateErr
  deriving DecidableEq

/-- `create_gslt`: snapshot the pre-existing token strings, submit the
creation form (an external effect taking the page from `pre` to `post`),
re-parse, keep the requested appid's tokens, and return the first one whose
string is new and whose memo matches; otherwise fall back to the last
appid-filtered entry; fail when no candidate exists. -/
def create_gslt (pre post : Dom) (appid : Int) (memo : String) : Except CreateErr String :=
  match get_all_tokens pre none with
  | .error e => .error (.dom e)
  | .ok preTs =>
    let before := preTs.map (fun t => t.gslt)
    match get_all_tokens post none with
    | .error e => .error (.dom e)
    | .ok postTs =>
      let after := postTs.filter (fun t => t.appid == appid)
      match after.find? (fun t => !(before.contains t.gslt) && t.memo == memo) with
      | some t => .ok t.gslt
      | none =>
        match after.getLast? with
        | some t => .ok t.gslt
        | none => .error .createFailed

/-- The login-page conditions that `_login_flow` observes: whether the
`input_username` element appears within the default wait, whether the
`authcode` guard box appears within the 6-unit wait, and whether the
URL-contains-"steam" wait after submitting the guard code succeeds. -/
structure LoginPage where
  usernamePresent : Bool
  guardBoxAppears : Bool
  urlContainsSteamAfter : Bool
  deriving DecidableEq

/-- Errors that `_login_flow` lets escape to its caller. -/
inductive LoginErr where
  | credentialsMissing
  deriving DecidableEq

/-- Exceptions arising inside the Steam Guard `try` block of `_login_flow`:
the 6-unit wait for the guard box timing out, the
`RuntimeError("Steam Guard code required but no get_guard_code callback
provided.")`, and the final URL wait timing out. -/
inductive GuardExc where
  | waitTimeout
  | guardCodeRequired
  | urlWaitTimeout
  deriving DecidableEq

/-- The body of the Steam Guard `try` block: wait for the guard box; obtain
a code from the callback (`none` models no callback configured, `some c`
a callback returning `c`); raise when the code is falsy; submit it and wait
for the URL condition. -/
def guard_step_body (p : LoginPage) (get_guard_code : Option String) : Except GuardExc Unit :=
  if !p.guardBoxAppears then .error .waitTimeout
  else
    match get_guard_code with
    | none => .error .guardCodeRequired
    | some code =>
      if code == "" then .error .guardCodeRequired
      else if p.urlContainsSteamAfter then .ok () else .error .urlWaitTimeout

/-- `_login_flow`: return at once when the username input never appears;
raise when the environment credentials are missing or empty; otherwise
submit them and run the Steam Guard block, whose surrounding
`except Exception: pass` swallows every exception the block raises. -/
def login_flow (p : LoginPage) (env_user env_pass : Option String)
    (get_guard_code : Option String) : Except LoginErr Unit :=
  if !p.usernamePresent then .ok ()
  else
    match env_user, env_pass with
    | some user, some pw =>
      if user == "" || pw == "" then .error .credentialsMissing
      else
        match guard_step_body p get_guard_code with
        | _ => .ok ()
    | none, _ => .error .credentialsMissing
    | _, none => .error .credentialsMissing

/-- Constructor arguments of `SteamGSLTManager.__init__` (the keyword
arguments `init_manager` forwards).  The guard-code callback is modelled by
the string it would return. -/
structure ManagerKwargs where
  user_data_dir : Option String := none
  profile_dir : Option String := none
  headless : Bool := true
  get_guard_code : Option String := none
  throttle_seconds : Nat := 1
  deriving DecidableEq

/-- A `SteamGSLTManager` instance: the configuration captured at
construction. -/
structure SteamGSLTManager where
  get_guard_code : Option String
  throttle : Nat
  user_data_dir : Option String
  profile_dir : Option String
  headless : Bool
  deriving DecidableEq

/-- `SteamGSLTManager.__init__`: capture the configuration. -/
def mkManager (kw : ManagerKwargs) : SteamGSLTManager :=
  { get_guard_code := kw.get_guard_code, throttle := kw.throttle_seconds,
    user_data_dir := kw.user_data_dir, profile_dir := kw.profile_dir,
    headless := kw.headless }

/-- The manager's operations, taking the instance explicitly as the Python
methods take `self` (the page states consumed are passed alongside). -/
def SteamGSLTManager.create_gslt (_self : SteamGSLTManager) (pre post : Dom)
    (appid : Int) (memo : String) : Except CreateErr String :=
  GSLT.create_gslt pre post appid memo

/-- Method form of `get_all_tokens`. -/
def SteamGSLTManager.get_all_tokens (_self : SteamGSLTManager) (d : Dom)
    (appid : Option Int) : Except DomErr (List Token) :=
  GSLT.get_all_tokens d appid

/-- Method form of `is_token_valid`. -/
def SteamGSLTManager.is_token_valid (_self : SteamGSLTManager) (d : Dom)
    (g : String) : Except DomErr Bool :=
  GSLT.is_token_valid d g

/-- Method form of `regenerate_token` up to its first mutation. -/
def SteamGSLTManager.regenerate_pre (_self : SteamGSLTManager) (d : Dom)
    (g : String) : RegenOutcome :=
  GSLT.regenerate_pre d g

/-- `init_manager`: the module-level `_singleton` cell, threaded
explicitly.  A `some` state returns the stored instance unchanged (the
keyword arguments are dead); a `none` state constructs and stores a fresh
instance. -/
def init_manager (st : Option SteamGSLTManager) (kw : ManagerKwargs) :
    SteamGSLTManager × Option SteamGSLTManager :=
  match st with
  | some m => (m, some m)
  | none =>
    let m := mkManager kw
    (m, some m)

end GSLT

namespace GSLT.ModuleLevel

/-- Module-level `create_gslt`: `init_manager()` then forward. -/
def create_gslt (st : Option SteamGSLTManager) (pre post : Dom) (appid : Int)
    (memo : String) : Except CreateErr String × Option SteamGSLTManager :=
  let r := init_manager st {}
  (r.1.create_gslt pre post appid memo, r.2)

/-- Module-level `get_all_tokens`: `init_manager()` then forward. -/
def get_all_tokens (st : Option SteamGSLTManager) (d : Dom) (appid : Option Int) :
    Except DomErr (List Token) × Option SteamGSLTManager :=
  let r := init_manager st {}
  (r.1.get_all_tokens d appid, r.2)

/-- Module-level `is_token_valid`: `init_manager()` then forward. -/
def is_token_valid (st : Option SteamGSLTManager) (d : Dom) (g : String) :
    Except DomErr Bool × Option SteamGSLTManager :=
  let r := init_manager st {}
  (r.1.is_token_valid d g, r.2)

/-- Module-level `regenerate_token` (pre-mutation part): `init_manager()`
then forward. -/
def regenerate_pre (st : Option SteamGSLTManager) (d : Dom) (g : String) :
    RegenOutcome × Option SteamGSLTManager :=
  let r := init_manager st {}
  (r.1.regenerate_pre d g, r.2)

end GSLT.ModuleLevel

namespace GSLT

/-- A plain text-only cell: no strikethrough signal, no raising query, no
forms. -/
def textCell (s : String) : Cell :=
  { text := s, descendantTags := [], tagQueryRaises := false,
    textDecorationLine := "", textDecoration := "", styleQueryRaises := false,
    forms := [] }

/-- A cell holding only action forms. -/
def formsCell (fs : List Form) : Cell :=
  { textCell "" with forms := fs }

/-- A page whose `serverList` container holds exactly one table with the
given body rows. -/
def pageOf (rows : List Row) : Dom :=
  { serverList := some { tables := [{ rows := rows }] } }

/-- Unfolding of `parseRow` on a row with at least five cells. -/
theorem parseRow_cons (c0 c1 c2 c3 c4 : Cell) (rest : List Cell) :
    parseRow ⟨c0 :: c1 :: c2 :: c3 :: c4 :: rest⟩ =
      match extract_steamid_from_row ⟨c0 :: c1 :: c2 :: c3 :: c4 :: rest⟩ with
      | .error e => .error e
      | .ok sid =>
        match pyInt? (pyStrip c0.text) with
        | none => .ok none
        | some n =>
          .ok (some { appid := n, gslt := pyStrip c1.text,
                      last_logon := if pyStrip c2.text == "" then none
                                    else some (pyStrip c2.text),
                      memo := pyStrip c3.text, steamid := sid,
                      valid := cell_not_struck c1 }) := rfl

/-- A row with fewer than five cells is skipped without raising. -/
theorem parseRow_short (r : Row) (h : r.tds.length < 5) : parseRow r = .ok none := by
  obtain ⟨tds⟩ := r
  rcases tds with _ | ⟨c0, tds⟩
  · rfl
  rcases tds with _ | ⟨c1, tds⟩
  · rfl
  rcases tds with _ | ⟨c2, tds⟩
  · rfl
  rcases tds with _ | ⟨c3, tds⟩
  · rfl
  rcases tds with _ | ⟨c4, rest⟩
  · rfl
  simp only [Row.tds, List.length_cons] at h
  omega

/-- Inversion: a row that contributes a record has at least five cells,
a successful steamid extraction, and fields read off those cells. -/
theorem parseRow_ok_some_inv (r : Row) (t : Token) (h : parseRow r = .ok (some t)) :
    ∃ c0 c1 c2 c3 c4 rest sid,
      r.tds = c0 :: c1 :: c2 :: c3 :: c4 :: rest ∧
      extract_steamid_from_row r = .ok sid ∧
      pyInt? (pyStrip c0.text) = some t.appid ∧
      t = { appid := t.appid, gslt := pyStrip c1.text,
            last_logon := if pyStrip c2.text == "" then none else some (pyStrip c2.text),
            memo := pyStrip c3.text, steamid := sid, valid := cell_not_struck c1 } := by
  obtain ⟨tds⟩ := r
  rcases tds with _ | ⟨c0, tds⟩
  · simp [parseRow] at h
  rcases tds with _ | ⟨c1, tds⟩
  · simp [parseRow] at h
  rcases tds with _ | ⟨c2, tds⟩
  · simp [parseRow] at h
  rcases tds with _ | ⟨c3, tds⟩
  · simp [parseRow] at h
  rcases tds with _ | ⟨c4, rest⟩
  · simp [parseRow] at h
  rw [parseRow_cons] at h
  rcases hex : extract_steamid_from_row ⟨c0 :: c1 :: c2 :: c3 :: c4 :: rest⟩ with e | sid
  · rw [hex] at h; simp at h
  rw [hex] at h
  rcases hpi : pyInt? (pyStrip c0.text) with _ | n
  · rw [hpi] at h; simp at h
  rw [hpi] at h
  simp only [Except.ok.injEq, Option.some.injEq] at h
  subst h
  exact ⟨c0, c1, c2, c3, c4, rest, sid, rfl, rfl, hpi, rfl⟩

/-- Inversion: the row loop raises only out of the steamid extraction of a
row with at least five cells. -/
theorem parseRow_error_inv (r : Row) (e : DomErr) (h : parseRow r = .error e) :
    5 ≤ r.tds.length ∧ extract_steamid_from_row r = .error e := by
  obtain ⟨tds⟩ := r
  rcases tds with _ | ⟨c0, tds⟩
  · simp [parseRow] at h
  rcases tds with _ | ⟨c1, tds⟩
  · simp [parseRow] at h
  rcases tds with _ | ⟨c2, tds⟩
  · simp [parseRow] at h
  rcases tds with _ | ⟨c3, tds⟩
  · simp [parseRow] at h
  rcases tds with _ | ⟨c4, rest⟩
  · simp [parseRow] at h
  rw [parseRow_cons] at h
  rcases hex : extract_steamid_from_row ⟨c0 :: c1 :: c2 :: c3 :: c4 :: rest⟩ with e2 | sid
  · rw [hex] at h
    simp only [Except.error.injEq] at h
    subst h
    refine ⟨?_, rfl⟩
    simp only [Row.tds, List.length_cons]
    omega
  · rw [hex] at h
    rcases hpi : pyInt? (pyStrip c0.text) with _ | n
    · rw [hpi] at h; simp at h
    · rw [hpi] at h; simp at h

/-- A row whose steamid extraction succeeds (when consulted) never aborts
the loop: it contributes exactly `rowToken?`. -/
theorem parseRow_eq_ok_rowToken (r : Row)
    (h : 5 ≤ r.tds.length → isOkB (extract_steamid_from_row r) = true) :
    parseRow r = .ok (rowToken? r) := by
  rcases hp : parseRow r with e | o
  · exfalso
    obtain ⟨h5, hex⟩ := parseRow_error_inv r e hp
    rw [hex] at h
    exact absurd (h h5) (by simp [isOkB])
  · rcases o with _ | t <;> simp [rowToken?, hp]

/-- The loop of `_parse_token_table` computes the per-row `filterMap` as
soon as every row's steamid extraction (when consulted) succeeds. -/
theorem parseRows_eq_filterMap (rows : List Row)
    (h : ∀ r ∈ rows, 5 ≤ r.tds.length → isOkB (extract_steamid_from_row r) = true) :
    parseRows rows = .ok (rows.filterMap rowToken?) := by
  induction rows with
  | nil => rfl
  | cons r rs ih =>
    have hr := parseRow_eq_ok_rowToken r (h r (List.mem_cons_self r rs))
    have hrs := ih (fun r2 hm => h r2 (List.mem_cons_of_mem r hm))
    rcases ho : rowToken? r with _ | t
    · rw [ho] at hr
      simp only [parseRows, hr, List.filterMap_cons, ho]
      exact hrs
    · rw [ho] at hr
      simp only [parseRows, hr, List.filterMap_cons, ho, hrs]

/-- Every record a successful loop returns came from some row. -/
theorem parseRows_ok_mem (rows : List Row) (ts : List Token)
    (h : parseRows rows = .ok ts) :
    ∀ t ∈ ts, ∃ r ∈ rows, parseRow r = .ok (some t) := by
  induction rows generalizing ts with
  | nil =>
    simp only [parseRows, Except.ok.injEq] at h
    subst h
    intro t ht
    exact absurd ht (List.not_mem_nil t)
  | cons r rs ih =>
    intro t ht
    rcases hp : parseRow r with e | (_ | t0)
    · rw [parseRows, hp] at h
      exact Except.noConfusion h
    · rw [parseRows, hp] at h
      obtain ⟨r2, hm, hp2⟩ := ih ts h t ht
      exact ⟨r2, List.mem_cons_of_mem r hm, hp2⟩
    · rw [parseRows, hp] at h
      rcases hrs : parseRows rs with e2 | ts2
      · rw [hrs] at h
        exact Except.noConfusion h
      · rw [hrs] at h
        simp only [Except.ok.injEq] at h
        subst h
        rcases List.mem_cons.mp ht with rfl | hmem
        · exact ⟨r, List.mem_cons_self r rs, hp⟩
        · obtain ⟨r2, hm, hp2⟩ := ih ts2 hrs t hmem
          exact ⟨r2, List.mem_cons_of_mem r hm, hp2⟩

/-- `parse_token_table` on the row view: it is the row loop over `domRows`. -/
theorem parse_token_table_eq_parseRows (d : Dom) :
    parse_token_table d = parseRows (domRows d) := by
  rcases d with ⟨_ | sl⟩
  · rfl
  · rcases sl with ⟨_ | ⟨tbl, more⟩⟩ <;> rfl

/-- `cell_not_struck` returns `false` exactly when one of the two
inspection signals fires without its query raising. -/
theorem cell_not_struck_eq_false_iff (c : Cell) :
    cell_not_struck c = false ↔
      ((c.tagQueryRaises = false ∧
          (c.descendantTags.contains "s" = true ∨ c.descendantTags.contains "strike" = true)) ∨
       (c.styleQueryRaises = false ∧
          strContains
            (if c.textDecorationLine == "" then c.textDecoration else c.textDecorationLine)
            "line-through" = true)) := by
  rcases c with ⟨txt, tags, tq, tdl, td, sq, fs⟩
  simp only [cell_not_struck]
  generalize tags.contains "s" = b1
  generalize tags.contains "strike" = b2
  generalize strContains (if tdl == "" then td else tdl) "line-through" = b3
  cases tq <;> cases sq <;> cases b1 <;> cases b2 <;> cases b3 <;> simp

/-- A form that does not match an endpoint, or matches but carries a falsy
steamid value, is skipped by the scan. -/
theorem scanForms_skip (f : Form) (fs : List Form)
    (h : actionMatches f = false ∨ f.steamid = some none ∨ f.steamid = some (some "")) :
    scanForms (f :: fs) = scanForms fs := by
  cases ham : actionMatches f
  · simp [scanForms, ham]
  · rcases h with h | h | h
    · rw [ham] at h
      exact Bool.noConfusion h
    · simp [scanForms, ham, h]
    · simp [scanForms, ham, h]

/-- A scan over forms that are all skipped returns the empty string. -/
theorem scanForms_all_skip (fs : List Form)
    (h : ∀ f ∈ fs, actionMatches f = false ∨ f.steamid = some none ∨ f.steamid = some (some "")) :
    scanForms fs = .ok "" := by
  induction fs with
  | nil => rfl
  | cons f fs ih =>
    rw [scanForms_skip f fs (h f (List.mem_cons_self f fs))]
    exact ih (fun g hg => h g (List.mem_cons_of_mem f hg))

/-- A matching form with a non-empty steamid value stops the scan. -/
theorem scanForms_hit (f : Form) (fs : List Form) (s : String)
    (hm : actionMatches f = true) (hs : f.steamid = some (some s)) (hne : s ≠ "") :
    scanForms (f :: fs) = .ok s := by
  simp [scanForms, hm, hs, hne]

/-- The scan returns the first non-empty steamid value among matching
forms, in document order. -/
theorem scanForms_append_hit (pre : List Form) (f : Form) (post : List Form) (s : String)
    (hpre : ∀ g ∈ pre,
      actionMatches g = false ∨ g.steamid = some none ∨ g.steamid = some (some ""))
    (hm : actionMatches f = true) (hs : f.steamid = some (some s)) (hne : s ≠ "") :
    scanForms (pre ++ f :: post) = .ok s := by
  induction pre with
  | nil => exact scanForms_hit f post s hm hs hne
  | cons g gs ih =>
    rw [List.cons_append, scanForms_skip g _ (hpre g (List.mem_cons_self g gs))]
    exact ih (fun g2 hg => hpre g2 (List.mem_cons_of_mem g hg))

/-- Rows with fewer than five cells contribute no record. -/
theorem rowToken?_short (r : Row) (h : r.tds.length < 5) : rowToken? r = none := by
  simp [rowToken?, parseRow_short r h]

/-- Rows whose first cell does not parse as an integer contribute no
record. -/
theorem rowToken?_nonint (r : Row) (c0 : Cell) (rest : List Cell)
    (h0 : r.tds = c0 :: rest) (hpi : pyInt? (pyStrip c0.text) = none) :
    rowToken? r = none := by
  obtain ⟨tds⟩ := r
  have h0x : tds = c0 :: rest := h0
  subst h0x
  rcases rest with _ | ⟨c1, rest⟩
  · exact rowToken?_short _ (by simp)
  rcases rest with _ | ⟨c2, rest⟩
  · exact rowToken?_short _ (by simp)
  rcases rest with _ | ⟨c3, rest⟩
  · exact rowToken?_short _ (by simp)
  rcases rest with _ | ⟨c4, rest⟩
  · exact rowToken?_short _ (by simp)
  rcases hex : extract_steamid_from_row ⟨c0 :: c1 :: c2 :: c3 :: c4 :: rest⟩ with e | sid
  · simp [rowToken?, parseRow_cons, hex]
  · simp [rowToken?, parseRow_cons, hex, hpi]

/-- A row that contributes a record: the record's fields come from the
first four cells, the extracted steamid and the strikethrough check. -/
theorem rowToken?_long (r : Row) (c0 c1 c2 c3 c4 : Cell) (rest : List Cell) (sid : String)
    (h0 : r.tds = c0 :: c1 :: c2 :: c3 :: c4 :: rest)
    (hex : extract_steamid_from_row r = .ok sid)
    (n : Int) (hpi : pyInt? (pyStrip c0.text) = some n) :
    rowToken? r = some { appid := n, gslt := pyStrip c1.text,
                         last_logon := if pyStrip c2.text == "" then none
                                       else some (pyStrip c2.text),
                         memo := pyStrip c3.text, steamid := sid,
                         valid := cell_not_struck c1 } := by
  obtain ⟨tds⟩ := r
  have h0x : tds = c0 :: c1 :: c2 :: c3 :: c4 :: rest := h0
  subst h0x
  have hexx : extract_steamid_from_row ⟨c0 :: c1 :: c2 :: c3 :: c4 :: rest⟩ = .ok sid := hex
  simp [rowToken?, parseRow_cons, hexx, hpi]

-- ------------------------------------------------------------------
-- Claim C1
-- ------------------------------------------------------------------

/-- Page whose single row matches a mutation endpoint but lacks the hidden
`steamid` field, so `find_element(By.NAME, "steamid")` raises. -/
def c1dom : Dom :=
  pageOf [⟨[textCell "10", textCell "ONETOK", textCell "", textCell "memo1",
    formsCell [{ action := some "https://steamcommunity.com/dev/resetgstoken",
                 steamid := none }]]⟩]

/-- C1, counterexample: on a table row whose action form matches a mutation
endpoint but lacks the hidden `steamid` field, `parseTokenTable` does not
return a list — the uncaught element lookup aborts the whole scrape, so the
claim's "never raises" fails. -/
theorem c1_counterexample : parse_token_table c1dom = .error .noSuchElement := rfl

/-- C1 (amended): for every DOM state in which each scanned row's steamid
extraction succeeds (in particular, every mutation-endpoint-matching form
consulted in a row with at least five cells carries the hidden `steamid`
field), `parseTokenTable` returns a list of Token records and never raises,
and rows that fail to parse are dropped (`rowToken? = none`) rather than
aborting the scrape. -/
theorem c1_parse_never_raises (d : Dom)
    (h : ∀ r ∈ domRows d, 5 ≤ r.tds.length → isOkB (extract_steamid_from_row r) = true) :
    parse_token_table d = .ok ((domRows d).filterMap rowToken?) := by
  rw [parse_token_table_eq_parseRows]
  exact parseRows_eq_filterMap (domRows d) h

/-- Fixture for the C1 witness: a good row, a short row and a row with a
non-integer appid, all with harmless action forms. -/
def w1dom : Dom :=
  pageOf [⟨[textCell "730", textCell "ABC123", textCell "", textCell "bot1",
      formsCell [{ action := some "https://steamcommunity.com/dev/resetgstoken",
                   steamid := some (some "1") }]]⟩,
    ⟨[textCell "header", textCell "x"]⟩,
    ⟨[textCell "total", textCell "y", textCell "", textCell "z", textCell ""]⟩]

/-- Witness for C1: the hypothesis and the conclusion both hold on `w1dom`. -/
theorem c1_parse_never_raises_witness :
    (∀ r ∈ domRows w1dom, 5 ≤ r.tds.length → isOkB (extract_steamid_from_row r) = true) ∧
    parse_token_table w1dom = .ok ((domRows w1dom).filterMap rowToken?) :=
  ⟨by decide, c1_parse_never_raises w1dom (by decide)⟩

-- ------------------------------------------------------------------
-- Claim C2
-- ------------------------------------------------------------------

/-- Login page on which the guard-code challenge is detected. -/
def c2page : LoginPage :=
  { usernamePresent := true, guardBoxAppears := true, urlContainsSteamAfter := true }

/-- C2, evaluation at the failing input: with a guard challenge present and
no callback configured (or a callback returning the empty string), the
guard block raises its `RuntimeError` — but the blanket
`except Exception: pass` wrapped around the block swallows it, so
`_login_flow` finishes with no error instead of surfacing the failure. -/
theorem c2_guard_error_swallowed :
    guard_step_body c2page none = .error .guardCodeRequired ∧
    guard_step_body c2page (some "") = .error .guardCodeRequired ∧
    login_flow c2page (some "user") (some "pw") none = .ok () ∧
    login_flow c2page (some "user") (some "pw") (some "") = .ok () :=
  ⟨rfl, rfl, rfl, rfl⟩

-- ------------------------------------------------------------------
-- Claim C3
-- ------------------------------------------------------------------

/-- Page with one pre-existing token `T1` (memo `old`) for appid 730; the
post-submission page is identical (the create visibly produced nothing). -/
def c3dom : Dom :=
  pageOf [⟨[textCell "730", textCell "T1", textCell "", textCell "old",
    formsCell [{ action := some "https://steamcommunity.com/dev/resetgstoken",
                 steamid := some (some "7") }]]⟩]

/-- C3, counterexample: `create_gslt 730 "new"` returns successfully via
the append-order fallback, yet the returned string `T1` is a member of the
pre-existing set and its record's memo is `old`, not the requested `new`. -/
theorem c3_counterexample :
    create_gslt c3dom c3dom 730 "new" = .ok "T1" ∧
    parse_token_table c3dom =
      .ok [{ appid := 730, gslt := "T1", last_logon := none, memo := "old",
             steamid := "7", valid := true }] ∧
    ("old" : String) ≠ "new" :=
  ⟨rfl, rfl, by decide⟩

/-- C3 (amended): when the exact-match path fires — some appid-filtered
post-state token has a string absent from the pre-existing set and the
requested memo — the returned token string is not in the pre-existing set
and its record's memo equals the requested memo; the append-order fallback
path carries no such guarantee. -/
theorem c3_create_exact_match (pre post : Dom) (appid : Int) (memo : String)
    (preTs postTs : List Token) (t : Token)
    (h1 : parse_token_table pre = .ok preTs)
    (h2 : parse_token_table post = .ok postTs)
    (hf : (postTs.filter (fun t => t.appid == appid)).find?
        (fun t => !((preTs.map (fun t => t.gslt)).contains t.gslt) && t.memo == memo)
      = some t) :
    create_gslt pre post appid memo = .ok t.gslt ∧
    (preTs.map (fun t => t.gslt)).contains t.gslt = false ∧
    t.memo = memo := by
  have hp := List.find?_some hf
  simp only [Bool.and_eq_true, Bool.not_eq_true', beq_iff_eq] at hp
  obtain ⟨hnotin, hmemo⟩ := hp
  refine ⟨?_, hnotin, hmemo⟩
  simp only [create_gslt, get_all_tokens, h1, h2, hf]

/-- Post-state fixture for the C3 witness: the pre-state is `c3dom`; the
reloaded page shows the old token plus a fresh `NEW99` with the requested
memo. -/
def w3post : Dom :=
  pageOf [⟨[textCell "730", textCell "T1", textCell "", textCell "old",
      formsCell [{ action := some "https://steamcommunity.com/dev/resetgstoken",
                   steamid := some (some "7") }]]⟩,
    ⟨[textCell "730", textCell "NEW99", textCell "", textCell "fresh",
      formsCell [{ action := some "https://steamcommunity.com/dev/resetgstoken",
                   steamid := some (some "8") }]]⟩]

/-- Tokens parsed from `c3dom`. -/
def w3preTs : List Token :=
  [{ appid := 730, gslt := "T1", last_logon := none, memo := "old",
     steamid := "7", valid := true }]

/-- Tokens parsed from `w3post`. -/
def w3postTs : List Token :=
  [{ appid := 730, gslt := "T1", last_logon := none, memo := "old",
     steamid := "7", valid := true },
   { appid := 730, gslt := "NEW99", last_logon := none, memo := "fresh",
     steamid := "8", valid := true }]

/-- The fresh record of `w3post`. -/
def w3new : Token :=
  { appid := 730, gslt := "NEW99", last_logon := none, memo := "fresh",
    steamid := "8", valid := true }

/-- Witness for C3: hypotheses and conclusion hold on the concrete
create run from `c3dom` to `w3post`. -/
theorem c3_create_exact_match_witness :
    parse_token_table c3dom = .ok w3preTs ∧
    parse_token_table w3post = .ok w3postTs ∧
    (create_gslt c3dom w3post 730 "fresh" = .ok w3new.gslt ∧
      (w3preTs.map (fun t => t.gslt)).contains w3new.gslt = false ∧
      w3new.memo = "fresh") :=
  ⟨rfl, rfl, c3_create_exact_match c3dom w3post 730 "fresh" w3preTs w3postTs w3new rfl rfl rfl⟩

-- ------------------------------------------------------------------
-- Claim C4
-- ------------------------------------------------------------------

/-- Page with a well-formed row (five cells, integer first cell) whose
action form lacks the hidden `steamid` field. -/
def c4dom : Dom :=
  pageOf [⟨[textCell "730", textCell "GOODTOK", textCell "", textCell "memo4",
    formsCell [{ action := some "https://steamcommunity.com/dev/resetgstoken",
                 steamid := none }]]⟩]

/-- C4, counterexample: this row has five cells and an integer first cell,
yet `parseTokenTable` yields no record for it — the steamid lookup raises
and the scrape aborts, so the claim's "yields exactly one record" fails. -/
theorem c4_counterexample :
    pyInt? (pyStrip "730") = some 730 ∧
    parse_token_table c4dom = .error .noSuchElement :=
  ⟨rfl, rfl⟩

/-- C4 (amended): provided each scanned row's steamid extraction succeeds,
`parseTokenTable` yields exactly the per-row records: a row with at least
five cells whose first cell parses as an integer contributes one record
with that appid, the second cell's text as token, the fourth cell's text as
memo, and the third cell's text (or absent when empty) as last logon; rows
with fewer than five cells or a non-integer first cell contribute no
record. -/
theorem c4_row_mapping (d : Dom)
    (hext : ∀ r ∈ domRows d, 5 ≤ r.tds.length → isOkB (extract_steamid_from_row r) = true) :
    parse_token_table d = .ok ((domRows d).filterMap rowToken?) ∧
    (∀ r c0 c1 c2 c3 c4 rest sid, Row.tds r = c0 :: c1 :: c2 :: c3 :: c4 :: rest →
      extract_steamid_from_row r = .ok sid →
      ∀ n, pyInt? (pyStrip c0.text) = some n →
      rowToken? r = some { appid := n, gslt := pyStrip c1.text,
                           last_logon := if pyStrip c2.text == "" then none
                                         else some (pyStrip c2.text),
                           memo := pyStrip c3.text, steamid := sid,
                           valid := cell_not_struck c1 }) ∧
    (∀ r : Row, (Row.tds r).length < 5 → rowToken? r = none) ∧
    (∀ r c0 rest, Row.tds r = c0 :: rest → pyInt? (pyStrip c0.text) = none →
      rowToken? r = none) := by
  refine ⟨?_, ?_, ?_, ?_⟩
  · rw [parse_token_table_eq_parseRows]
    exact parseRows_eq_filterMap (domRows d) hext
  · intro r c0 c1 c2 c3 c4 rest sid h0 hex n hpi
    exact rowToken?_long r c0 c1 c2 c3 c4 rest sid h0 hex n hpi
  · intro r h
    exact rowToken?_short r h
  · intro r c0 rest h0 hpi
    exact rowToken?_nonint r c0 rest h0 hpi

/-- Fixture for the C4 witness: one well-formed row with a complete action
form, one short row, one row with a non-integer first cell. -/
def w4dom : Dom :=
  pageOf [⟨[textCell " 440 ", textCell "DEF456", textCell "never",
      textCell "bot2",
      formsCell [{ action := some "https://steamcommunity.com/dev/updategsmemo",
                   steamid := some (some "22") }]]⟩,
    ⟨[textCell "only", textCell "two"]⟩,
    ⟨[textCell "n/a", textCell "t", textCell "", textCell "m", textCell ""]⟩]

/-- Witness for C4: the hypothesis and the conclusion both hold on
`w4dom`. -/
theorem c4_row_mapping_witness :
    (∀ r ∈ domRows w4dom, 5 ≤ r.tds.length → isOkB (extract_steamid_from_row r) = true) ∧
    (parse_token_table w4dom = .ok ((domRows w4dom).filterMap rowToken?) ∧
      (∀ r c0 c1 c2 c3 c4 rest sid, Row.tds r = c0 :: c1 :: c2 :: c3 :: c4 :: rest →
        extract_steamid_from_row r = .ok sid →
        ∀ n, pyInt? (pyStrip c0.text) = some n →
        rowToken? r = some { appid := n, gslt := pyStrip c1.text,
                             last_logon := if pyStrip c2.text == "" then none
                                           else some (pyStrip c2.text),
                             memo := pyStrip c3.text, steamid := sid,
                             valid := cell_not_struck c1 }) ∧
      (∀ r : Row, (Row.tds r).length < 5 → rowToken? r = none) ∧
      (∀ r c0 rest, Row.tds r = c0 :: rest → pyInt? (pyStrip c0.text) = none →
        rowToken? r = none)) :=
  ⟨by decide, c4_row_mapping w4dom (by decide)⟩

-- ------------------------------------------------------------------
-- Claim C5
-- ------------------------------------------------------------------

/-- C5: the `valid` flag of a parsed record is `false` exactly when its
token cell's descendant query (not raising) finds an `<s>` or `<strike>`
tag, or the computed-style script (not raising) reports a text decoration
containing `line-through`; when neither signal fires — including when the
inspections error — the flag defaults to `true`. -/
theorem c5_valid_flag (r : Row) (t : Token) (c : Cell)
    (hp : parseRow r = .ok (some t)) (hc : r.tds.get? 1 = some c) :
    (t.valid = false ↔
      ((c.tagQueryRaises = false ∧
          (c.descendantTags.contains "s" = true ∨ c.descendantTags.contains "strike" = true)) ∨
       (c.styleQueryRaises = false ∧
          strContains
            (if c.textDecorationLine == "" then c.textDecoration else c.textDecorationLine)
            "line-through" = true))) := by
  obtain ⟨c0, c1, c2, c3, c4, rest, sid, h0, hex, hpi, hteq⟩ := parseRow_ok_some_inv r t hp
  rw [h0] at hc
  simp only [List.get?_cons_succ, List.get?_cons_zero, Option.some.injEq] at hc
  subst hc
  have hv : t.valid = cell_not_struck c1 := by rw [hteq]
  rw [hv]
  exact cell_not_struck_eq_false_iff c1

/-- Token cell fixture for the C5 witness: a strikethrough-tagged cell. -/
def w5cell : Cell :=
  { text := "STRUCKTOK", descendantTags := ["s"], tagQueryRaises := false,
    textDecorationLine := "", textDecoration := "", styleQueryRaises := false,
    forms := [] }

/-- Row fixture for the C5 witness. -/
def w5row : Row :=
  ⟨[textCell "730", w5cell, textCell "", textCell "bot",
    formsCell [{ action := some "https://steamcommunity.com/dev/resetgstoken",
                 steamid := some (some "9") }]]⟩

/-- Record parsed from `w5row`. -/
def w5tok : Token :=
  { appid := 730, gslt := "STRUCKTOK", last_logon := none, memo := "bot",
    steamid := "9", valid := false }

/-- Witness for C5: the hypotheses and the equivalence hold on the struck
row `w5row`. -/
theorem c5_valid_flag_witness :
    parseRow w5row = .ok (some w5tok) ∧
    w5row.tds.get? 1 = some w5cell ∧
    (w5tok.valid = false ↔
      ((w5cell.tagQueryRaises = false ∧
          (w5cell.descendantTags.contains "s" = true ∨
            w5cell.descendantTags.contains "strike" = true)) ∨
       (w5cell.styleQueryRaises = false ∧
          strContains
            (if w5cell.textDecorationLine == "" then w5cell.textDecoration
             else w5cell.textDecorationLine)
            "line-through" = true))) :=
  ⟨rfl, rfl, c5_valid_flag w5row w5tok w5cell rfl rfl⟩

-- ------------------------------------------------------------------
-- Claim C6
-- ------------------------------------------------------------------

/-- The forms of the C6 counterexample's trailing cell: the first matching
form carries an empty steamid value, the second a non-empty one. -/
def c6forms : List Form :=
  [{ action := some "https://steamcommunity.com/dev/resetgstoken",
     steamid := some (some "") },
   { action := some "https://steamcommunity.com/dev/updategsmemo",
     steamid := some (some "42") }]

/-- Row for the C6 counterexample. -/
def c6row : Row :=
  ⟨[textCell "10", textCell "SIXTOK", textCell "", textCell "memo6",
    formsCell c6forms]⟩

/-- C6, counterexample: the first form whose action matches a mutation
endpoint carries the steamid value `""`, yet the extraction does not return
that first form's value — it skips the falsy value and returns `"42"` from
the second matching form. -/
theorem c6_counterexample :
    c6forms.find? actionMatches =
      some { action := some "https://steamcommunity.com/dev/resetgstoken",
             steamid := some (some "") } ∧
    extract_steamid_from_row c6row = .ok "42" ∧
    ("42" : String) ≠ "" :=
  ⟨rfl, rfl, by decide⟩

/-- C6 (amended): the extraction scans the trailing cell's forms in order
and returns the first non-empty `steamid` value carried by a form whose
action matches a mutation endpoint; matching forms with an absent or empty
value are skipped, and when every form is skipped the result is the empty
string (provided each matching form consulted carries the hidden field, the
lookup raising otherwise). -/
theorem c6_steamid_scan (r : Row) (fc : Cell) (hlast : r.tds.getLast? = some fc) :
    ((∀ f ∈ fc.forms,
        actionMatches f = false ∨ f.steamid = some none ∨ f.steamid = some (some "")) →
      extract_steamid_from_row r = .ok "") ∧
    (∀ pre f post s, fc.forms = pre ++ f :: post →
      (∀ g ∈ pre,
        actionMatches g = false ∨ g.steamid = some none ∨ g.steamid = some (some "")) →
      actionMatches f = true → f.steamid = some (some s) → s ≠ "" →
      extract_steamid_from_row r = .ok s) := by
  constructor
  · intro h
    simp only [extract_steamid_from_row, hlast]
    exact scanForms_all_skip fc.forms h
  · intro pre f post s hsplit hpre hm hs hne
    simp only [extract_steamid_from_row, hlast, hsplit]
    exact scanForms_append_hit pre f post s hpre hm hs hne

/-- Trailing-cell fixture for the C6 witness: a non-matching form, then a
matching form with value `"77"`. -/
def w6cell : Cell :=
  formsCell [{ action := some "https://steamcommunity.com/dev/other", steamid := none },
    { action := some "https://steamcommunity.com/dev/deletegsaccount",
      steamid := some (some "77") }]

/-- Row fixture for the C6 witness. -/
def w6row : Row :=
  ⟨[textCell "10", textCell "WTOK", textCell "", textCell "m6", w6cell]⟩

/-- Witness for C6: the hypotheses and both scan conclusions hold on
`w6row`, instantiating the split at the matching form. -/
theorem c6_steamid_scan_witness :
    w6row.tds.getLast? = some w6cell ∧
    extract_steamid_from_row w6row = .ok "77" :=
  ⟨rfl, by
    refine (c6_steamid_scan w6row w6cell rfl).2
      [{ action := some "https://steamcommunity.com/dev/other", steamid := none }]
      { action := some "https://steamcommunity.com/dev/deletegsaccount",
        steamid := some (some "77") }
      [] "77" rfl ?_ (by decide) rfl (by decide)
    intro g hg
    left
    have hgx : g = { action := some "https://steamcommunity.com/dev/other",
                     steamid := none } := by
      simpa using hg
    rw [hgx]
    decide⟩

-- ------------------------------------------------------------------
-- Claim C7
-- ------------------------------------------------------------------

/-- Page whose only row's action form lacks the hidden `steamid` field, so
any validity query raises out of the parse. -/
def c7dom : Dom :=
  pageOf [⟨[textCell "440", textCell "SEVTOK", textCell "", textCell "memo7",
    formsCell [{ action := some "https://steamcommunity.com/dev/deletegsaccount",
                 steamid := none }]]⟩]

/-- C7, counterexample: no parsed record matches `"ZZZ"` (the parse yields
none at all), yet `is_token_valid` raises the scrape's element-lookup
exception instead of returning `false`. -/
theorem c7_counterexample : is_token_valid c7dom "ZZZ" = .error .noSuchElement := rfl

/-- C7 (amended): whenever the table parse succeeds, `is_token_valid`
never raises: it compares the query case-insensitively against the parsed
token strings and returns the first matching record's `valid` flag, and
`false` when no parsed record matches; when the parse itself raises, the
exception propagates to the caller. -/
theorem c7_validity_query (d : Dom) (ts : List Token) (g : String)
    (h : parse_token_table d = .ok ts) :
    is_token_valid d g =
      .ok ((ts.find? (fun t => pyUpper t.gslt == pyUpper g)).elim false Token.valid) ∧
    ((∀ t ∈ ts, pyUpper t.gslt ≠ pyUpper g) → is_token_valid d g = .ok false) := by
  constructor
  · simp only [is_token_valid, h]
    rcases hf : ts.find? (fun t => pyUpper t.gslt == pyUpper g) with _ | t <;> simp [hf]
  · intro hm
    have hf : ts.find? (fun t => pyUpper t.gslt == pyUpper g) = none := by
      rw [List.find?_eq_none]
      intro t ht
      simp [hm t ht]
    simp only [is_token_valid, h, hf]

/-- Fixture for the C7 witness: one live and one struck token. -/
def w7dom : Dom :=
  pageOf [⟨[textCell "730", textCell "ABC123", textCell "", textCell "bot1",
      formsCell [{ action := some "https://steamcommunity.com/dev/resetgstoken",
                   steamid := some (some "1") }]]⟩,
    ⟨[textCell "730", w5cell, textCell "", textCell "bot",
      formsCell [{ action := some "https://steamcommunity.com/dev/resetgstoken",
                   steamid := some (some "9") }]]⟩]

/-- Tokens parsed from `w7dom`. -/
def w7ts : List Token :=
  [{ appid := 730, gslt := "ABC123", last_logon := none, memo := "bot1",
     steamid := "1", valid := true },
   { appid := 730, gslt := "STRUCKTOK", last_logon := none, memo := "bot",
     steamid := "9", valid := false }]

/-- Witness for C7: the hypothesis and both conclusions hold on `w7dom`
with the case-insensitive query `"abc123"`. -/
theorem c7_validity_query_witness :
    parse_token_table w7dom = .ok w7ts ∧
    (is_token_valid w7dom "abc123" =
        .ok ((w7ts.find? (fun t => pyUpper t.gslt == pyUpper "abc123")).elim
          false Token.valid) ∧
      ((∀ t ∈ w7ts, pyUpper t.gslt ≠ pyUpper "abc123") →
        is_token_valid w7dom "abc123" = .ok false)) :=
  ⟨rfl, c7_validity_query w7dom w7ts "abc123" rfl⟩

-- ------------------------------------------------------------------
-- Claim C8
-- ------------------------------------------------------------------

/-- Page whose only row matches no query but whose action form lacks the
hidden `steamid` field. -/
def c8dom : Dom :=
  pageOf [⟨[textCell "570", textCell "EIGHTTOK", textCell "", textCell "memo8",
    formsCell [{ action := some "https://steamcommunity.com/dev/updategsmemo",
                 steamid := none }]]⟩]

/-- C8, counterexample: no cell of any row matches `"ZZZ"` even
case-insensitively, yet the regenerate flow fails with the scrape's
element-lookup exception rather than the `TokenNotFound` error. -/
theorem c8_counterexample :
    (∀ r ∈ domRows c8dom, ∀ c ∈ Row.tds r, pyUpper (pyStrip c.text) ≠ pyUpper "ZZZ") ∧
    regenerate_pre c8dom "ZZZ" = .raises .noSuchElement ∧
    RegenOutcome.raises .noSuchElement ≠ .tokenNotFound :=
  ⟨by decide, rfl, by decide⟩

/-- C8 (amended): whenever the table parse succeeds and no parsed token
matches the query case-insensitively, `regenerate_token` fails with the
`TokenNotFound` error before submitting anything — in particular the
outcome is not a form submission, so the token table is left unchanged;
when the parse itself raises, that exception (not `TokenNotFound`)
propagates, still before any submission. -/
theorem c8_token_not_found (d : Dom) (g : String) (ts : List Token)
    (h : parse_token_table d = .ok ts)
    (hm : ∀ t ∈ ts, pyUpper t.gslt ≠ pyUpper g) :
    regenerate_pre d g = .tokenNotFound ∧ ∀ f, regenerate_pre d g ≠ .submits f := by
  have hf : ts.find? (fun t => pyUpper t.gslt == pyUpper g) = none := by
    rw [List.find?_eq_none]
    intro t ht
    simp [hm t ht]
  have hrow : find_row_by_token d g = .ok none := by
    simp only [find_row_by_token, h, hf]
  constructor
  · simp only [regenerate_pre, hrow]
  · intro f
    simp only [regenerate_pre, hrow]
    exact fun hcon => RegenOutcome.noConfusion hcon

/-- Fixture for the C8 witness: a healthy page holding only `ABC123`. -/
def w8dom : Dom :=
  pageOf [⟨[textCell "730", textCell "ABC123", textCell "", textCell "bot1",
    formsCell [{ action := some "https://steamcommunity.com/dev/resetgstoken",
                 steamid := some (some "1") }]]⟩]

/-- Tokens parsed from `w8dom`. -/
def w8ts : List Token :=
  [{ appid := 730, gslt := "ABC123", last_logon := none, memo := "bot1",
     steamid := "1", valid := true }]

/-- Witness for C8: the hypotheses and the conclusion hold on `w8dom` with
the absent query `"ZZZ"`. -/
theorem c8_token_not_found_witness :
    parse_token_table w8dom = .ok w8ts ∧
    (∀ t ∈ w8ts, pyUpper t.gslt ≠ pyUpper "ZZZ") ∧
    (regenerate_pre w8dom "ZZZ" = .tokenNotFound ∧
      ∀ f, regenerate_pre w8dom "ZZZ" ≠ .submits f) :=
  ⟨rfl, by decide, c8_token_not_found w8dom "ZZZ" w8ts rfl (by decide)⟩

-- ------------------------------------------------------------------
-- Claim C9
-- ------------------------------------------------------------------

/-- Page whose only row has the first cell `-5`, which Python's `int()`
accepts. -/
def c9dom : Dom :=
  pageOf [⟨[textCell "-5", textCell "NEGTOK", textCell "", textCell "memo9",
    textCell ""]⟩]

/-- C9, counterexample: `parseTokenTable` produces a record whose appid is
the non-positive integer `-5`, so "every record has a positive appid"
fails. -/
theorem c9_counterexample :
    parse_token_table c9dom =
      .ok [{ appid := -5, gslt := "NEGTOK", last_logon := none, memo := "memo9",
             steamid := "", valid := true }] ∧
    ¬ 0 < (-5 : Int) :=
  ⟨rfl, by decide⟩

/-- C9 (amended): every record produced by `parseTokenTable` carries as
appid the integer parsed by Python's `int()` from its row's first cell —
an integer, but not necessarily a positive one. -/
theorem c9_appid_from_cell (d : Dom) (ts : List Token)
    (h : parse_token_table d = .ok ts) :
    ∀ t ∈ ts, ∃ r ∈ domRows d, ∃ c0 rest, Row.tds r = c0 :: rest ∧
      pyInt? (pyStrip c0.text) = some t.appid := by
  rw [parse_token_table_eq_parseRows] at h
  intro t ht
  obtain ⟨r, hr, hp⟩ := parseRows_ok_mem (domRows d) ts h t ht
  obtain ⟨c0, c1, c2, c3, c4, rest, sid, h0, _, hpi, _⟩ := parseRow_ok_some_inv r t hp
  exact ⟨r, hr, c0, c1 :: c2 :: c3 :: c4 :: rest, h0, hpi⟩

/-- Witness for C9: the hypothesis and the conclusion hold on `c9dom`'s
parse result. -/
theorem c9_appid_from_cell_witness :
    parse_token_table c9dom =
      .ok [{ appid := -5, gslt := "NEGTOK", last_logon := none, memo := "memo9",
             steamid := "", valid := true }] ∧
    (∀ t ∈ [({ appid := -5, gslt := "NEGTOK", last_logon := none, memo := "memo9",
               steamid := "", valid := true } : Token)],
      ∃ r ∈ domRows c9dom, ∃ c0 rest, Row.tds r = c0 :: rest ∧
        pyInt? (pyStrip c0.text) = some t.appid) :=
  ⟨rfl, c9_appid_from_cell c9dom _ rfl⟩

-- ------------------------------------------------------------------
-- Claim C10
-- ------------------------------------------------------------------

/-- C10: after the first `init_manager` call populates the singleton cell,
every subsequent call returns the same instance with its keyword arguments
ignored and leaves the cell unchanged, and each module-level convenience
operation forwards to the shared instance. -/
theorem c10_singleton (kw0 kw1 : ManagerKwargs) (m : SteamGSLTManager)
    (pre post d : Dom) (appid : Int) (aid : Option Int) (memo g : String) :
    init_manager (init_manager none kw0).2 kw1 = init_manager none kw0 ∧
    init_manager (some m) kw1 = (m, some m) ∧
    ModuleLevel.create_gslt (some m) pre post appid memo
      = (m.create_gslt pre post appid memo, some m) ∧
    ModuleLevel.get_all_tokens (some m) d aid = (m.get_all_tokens d aid, some m) ∧
    ModuleLevel.is_token_valid (some m) d g = (m.is_token_valid d g, some m) ∧
    ModuleLevel.regenerate_pre (some m) d g = (m.regenerate_pre d g, some m) :=
  ⟨rfl, rfl, rfl, rfl, rfl, rfl⟩

end GSLT
